import Mathlib

/-!
# Verification of the video-transcoding pipeline

Shallow embedding of `src/video_transcoder.py` and `src/celery_worker.py`:
output-name derivation, request validation, the storage retry loops, the
Celery job-level retry, local-file cleanup, upload intake, bucket
normalisation, and the status projection.  Storage (MinIO) is modelled by
explicit outcome functions / key listings; the object-store client's
documented contract (lexicographically ordered listings, `S3Error` codes)
backs the parts of the model that are not literal Python code.
-/

namespace VideoTranscoder

/-- `INPUT_BUCKET` constant (video_transcoder.py line 37 / celery_worker.py line 35). -/
def INPUT_BUCKET : String := "videobucket"

/-- `OUTPUT_BUCKET` constant (video_transcoder.py line 38 / celery_worker.py line 36). -/
def OUTPUT_BUCKET : String := "videobucket"

/-- Output-name derivation in `transcode_video` (video_transcoder.py lines 278-284):
`hls → <file_id>_transcoded.m3u8`, `dash → <file_id>_transcoded.mpd`,
anything else → `<file_id>_transcoded.mp4`. -/
def transcodeOutputName (file_id fmt : String) : String :=
  if fmt = "hls" then file_id ++ "_transcoded.m3u8"
  else if fmt = "dash" then file_id ++ "_transcoded.mpd"
  else file_id ++ "_transcoded.mp4"

/-- Output-name derivation in `check_status` (video_transcoder.py lines 405-411);
textually the same branching as in `transcode_video`, embedded separately so the
two sites can be compared. -/
def statusOutputName (file_id fmt : String) : String :=
  if fmt = "hls" then file_id ++ "_transcoded.m3u8"
  else if fmt = "dash" then file_id ++ "_transcoded.mpd"
  else file_id ++ "_transcoded.mp4"

/-- The `Literal` resolution set of `TranscodeRequest` (video_transcoder.py lines 17-25). -/
def validResolutions : List String :=
  ["3840:2160", "2560:1440", "1920:1080", "1280:720", "854:480", "640:360", "426:240"]

/-- The `Literal` format set of `TranscodeRequest` (video_transcoder.py line 26). -/
def validFormats : List String := ["dash", "hls", "mp4"]

/-- Pydantic validation of `TranscodeRequest`: both fields must be members of their
`Literal` sets.  FastAPI runs this on the request body before the handler body
(and hence before any storage I/O) executes. -/
def validTranscodeRequest (resolution fmt : String) : Bool :=
  validResolutions.contains resolution && validFormats.contains fmt

/-- Character-level prefix test, the semantics of Python's `str.startswith` and
of the server-side `prefix=` filter of `minio_client.list_objects`
(video_transcoder.py line 270). -/
def startsWithChars : List Char → List Char → Bool
  | [], _ => true
  | _ :: _, [] => false
  | a :: as, b :: bs => a == b && startsWithChars as bs

/-- `p` is a character-prefix of `s` (Python `s.startswith(p)`). -/
def strStartsWith (p s : String) : Bool :=
  startsWithChars p.toList s.toList

/-- A stored key matches the lookup when `p` is a character-prefix of the key. -/
def keyMatches (p k : String) : Bool :=
  strStartsWith p k

/-- The MinIO/S3 `list_objects(bucket, prefix=p)` contract: keys of the bucket
that have `p` as a prefix, in the order the client yields them.  The client's
documented contract returns keys lexicographically sorted; theorems that rely on
the order carry that as a `Sorted` hypothesis on the bucket listing. -/
def listKeys (listing : List String) (p : String) : List String :=
  listing.filter (fun k => keyMatches p k)

/-- `transcode_video`'s source lookup (video_transcoder.py lines 268-273): iterate
`list_objects(INPUT_BUCKET, prefix=file_id)` and keep the first yielded key. -/
def firstKeyFor (listing : List String) (p : String) : Option String :=
  (listKeys listing p).head?

/-- Result of a transcode submission as seen by the caller. -/
inductive TranscodeOutcome where
  | validationError                         -- 422 from pydantic, handler never runs
  | notFound                                -- 404 "Video file not found"
  | started (input_name output_name : String)
deriving DecidableEq, Repr

/-- Side effects of a transcode submission: whether the storage listing was
performed, and the background task enqueued (input, output, resolution, format),
if any. -/
structure TranscodeEffects where
  storageListed : Bool
  enqueuedTask : Option (String × String × String × String)
deriving DecidableEq, Repr

/-- The `POST /transcode/{file_id}` boundary (video_transcoder.py lines 260-296)
together with the pydantic validation layer: an invalid body is rejected before
the handler body runs; otherwise the source is resolved by prefix lookup, 404 if
absent, and on success the background task is enqueued and the derived output
name returned. -/
def transcodeSubmit (listing : List String) (file_id resolution fmt : String) :
    TranscodeOutcome × TranscodeEffects :=
  if ¬ validTranscodeRequest resolution fmt then
    (.validationError, ⟨false, none⟩)
  else
    match firstKeyFor listing file_id with
    | none => (.notFound, ⟨true, none⟩)
    | some input_name =>
        let output_name := transcodeOutputName file_id fmt
        (.started input_name output_name,
         ⟨true, some (input_name, output_name, resolution, fmt)⟩)

/-! ## Storage retry loops (upload path and stream/stat read path) -/

/-- One storage event in a retry trace.  `putAttempt`/`statAttempt` record the
0-based loop index of an attempted call; `sleep` records a backoff in
milliseconds (the Python `asyncio.sleep(0.5 * (attempt + 1))` is exactly
`500 * (attempt + 1)` ms — the binary floats 0.5, 1.0, 1.5 are exact). -/
inductive StorageEvent where
  | putAttempt (attempt : Nat)
  | statAttempt (attempt : Nat)
  | sleep (ms : Nat)
deriving DecidableEq, Repr

/-- Equality of upload results (`Except` carries the raised `S3Error` code). -/
instance : DecidableEq (Except String Unit) := fun a b =>
  match a, b with
  | .ok _, .ok _ => isTrue rfl
  | .error x, .error y =>
      match decEq x y with
      | isTrue h => isTrue (congrArg Except.error h)
      | isFalse h => isFalse (fun hh => h (by cases hh; rfl))
  | .ok _, .error _ => isFalse (fun hh => by cases hh)
  | .error _, .ok _ => isFalse (fun hh => by cases hh)

/-- Outcome of one `fput_object` call: `none` is success, `some code` is an
`S3Error` carrying that error code. -/
abbrev PutOutcome := Option String

/-- The per-file upload retry loop of `transcode_video_task`
(video_transcoder.py lines 186-202 and 156-178; identically celery_worker.py
lines 125-168): `for attempt in range(3)`, `break` on success, `continue`
(with no delay) while `attempt < max_retries - 1`, re-raise the last `S3Error`
on the final attempt.  The loop is translated structurally on the number `r`
of iterations remaining, so the 0-based loop index is `attempt = 3 - r`; the
source's retry condition `attempt < max_retries - 1` is `r ≠ 1`, i.e. the
recursive call happens except on the last iteration.  Returns the result
together with the event trace. -/
def uploadGo (outcomes : Nat → PutOutcome) : Nat → Except String Unit × List StorageEvent
  | 0 => (.ok (), [])          -- loop fall-through: unreachable when started at r = 3
  | r + 1 =>
      let attempt := 2 - r
      match outcomes attempt with
      | none => (.ok (), [.putAttempt attempt])
      | some e =>
          if r = 0 then (.error e, [.putAttempt attempt])
          else
            let rest := uploadGo outcomes r
            (rest.1, .putAttempt attempt :: rest.2)

/-- The upload retry loop as the source runs it: `max_retries = 3` iterations,
first loop index 0. -/
def uploadWithRetry (outcomes : Nat → PutOutcome) : Except String Unit × List StorageEvent :=
  uploadGo outcomes 3

/-- Outcome of one `stat_object` + `get_object` round inside `stream_video`'s
loop: success with the stat size, or an `S3Error` with a code. -/
inductive S3Outcome where
  | ok (size : Nat)
  | err (code : String)
deriving DecidableEq, Repr

/-- HTTP-level result of the stream/download/status endpoints. -/
inductive StreamResult where
  | success (size : Nat)        -- StreamingResponse, Content-Length = size
  | notFound                    -- HTTPException 404
  | httpError (detail : String) -- HTTPException 500 carrying the error
deriving DecidableEq, Repr

/-- The retry loop of `stream_video` (video_transcoder.py lines 307-352):
`for attempt in range(3)`; success returns the response; `S3Error` with code
`NoSuchKey` raises 404 immediately; code `AccessDenied` with `attempt <
max_retries - 1` sleeps `0.5 * (attempt + 1)` seconds and retries; any other
error (or `AccessDenied` on the last attempt) raises 500 with the error.
The loop is translated structurally on the number `r` of iterations
remaining (`attempt = 3 - r`, retry condition `attempt < max_retries - 1` is
`r ≠ 1`); the `r = 0` fall-through is the post-loop
`"Stream failed after retries"` 500, which is unreachable because the last
iteration always returns or raises. -/
def streamGo (outcomes : Nat → S3Outcome) : Nat → StreamResult × List StorageEvent
  | 0 => (.httpError "Stream failed after retries", [])
  | r + 1 =>
      let attempt := 2 - r
      match outcomes attempt with
      | .ok size => (.success size, [.statAttempt attempt])
      | .err code =>
          if code = "NoSuchKey" then (.notFound, [.statAttempt attempt])
          else if code = "AccessDenied" ∧ r ≠ 0 then
            let rest := streamGo outcomes r
            (rest.1,
             .statAttempt attempt :: .sleep (500 * (attempt + 1)) :: rest.2)
          else
            (.httpError code, [.statAttempt attempt])

/-- `normalizeBucket` (video_transcoder.py lines 312-314, 358-360, 382-384,
439-441): a bucket name outside `[INPUT_BUCKET, OUTPUT_BUCKET]` is silently
replaced by `OUTPUT_BUCKET`. -/
def normalizeBucket (b : String) : String :=
  if b = INPUT_BUCKET ∨ b = OUTPUT_BUCKET then b else OUTPUT_BUCKET

/-- `GET /stream/{filename}` (video_transcoder.py lines 304-352): the storage
behaviour is a function of bucket, filename and attempt; the loop normalises
the bucket (identically on every iteration) and runs the retry loop. -/
def stream_video (store : String → String → Nat → S3Outcome) (filename bucket : String) :
    StreamResult × List StorageEvent :=
  streamGo (store (normalizeBucket bucket) filename) 3

/-- `GET /download/{filename}` (video_transcoder.py lines 355-376): single
attempt, no retry; `NoSuchKey` → 404, other `S3Error` → 500. -/
def download_video (store : String → String → S3Outcome) (filename bucket : String) :
    StreamResult :=
  match store (normalizeBucket bucket) filename with
  | .ok size => .success size
  | .err code => if code = "NoSuchKey" then .notFound else .httpError code

/-- Outcome of one `remove_object` call: `none` is success, `some code` an
`S3Error` code. -/
abbrev RemoveOutcome := Option String

/-- Result of `DELETE /{filename}`. -/
inductive DeleteResult where
  | ok (filename bucket : String)  -- {"message": deleted filename from bucket}
  | notFound
  | httpError (detail : String)
deriving DecidableEq, Repr

/-- `DELETE /{filename}` (video_transcoder.py lines 436-452): normalise the
bucket, call `remove_object`; `NoSuchKey` → 404, other `S3Error` → 500. -/
def delete_video (remove : String → String → RemoveOutcome) (filename bucket : String) :
    DeleteResult :=
  let b := normalizeBucket bucket
  match remove b filename with
  | none => .ok filename b
  | some code => if code = "NoSuchKey" then .notFound else .httpError code

/-! ## Status projection -/

/-- Result of `GET /status/{file_id}`. -/
inductive StatusResult where
  | completed (output_name stream_url : String)
  | processing
  | httpError (detail : String)
deriving DecidableEq, Repr

/-- `check_status` (video_transcoder.py lines 401-433): recompute the output
name from `(file_id, format)`, `stat_object(OUTPUT_BUCKET, output_name)`;
success → `completed` with the name and `/videos/stream/<name>`; `S3Error`
`NoSuchKey` → `processing`; any other error is re-raised and becomes a 500.
`format` is a plain `str` query parameter with no validation layer. -/
def check_status (stat : String → String → S3Outcome) (file_id fmt : String) :
    StatusResult :=
  let output_name := statusOutputName file_id fmt
  match stat OUTPUT_BUCKET output_name with
  | .ok _ => .completed output_name ("/videos/stream/" ++ output_name)
  | .err code => if code = "NoSuchKey" then .processing else .httpError code

/-! ## Upload intake -/

/-- Tail of `l` starting at its last `'.'`, or `[]` when no `'.'` occurs. -/
def tailFromLastDot : List Char → List Char
  | [] => []
  | c :: rest =>
      let t := tailFromLastDot rest
      if t.isEmpty then (if c = '.' then c :: rest else []) else t

/-- Split a character list at `'/'` separators (`acc` holds the reversed
current component). -/
def splitOnSlash : List Char → List Char → List (List Char)
  | [], acc => [acc.reverse]
  | c :: rest, acc =>
      if c = '/' then acc.reverse :: splitOnSlash rest []
      else splitOnSlash rest (c :: acc)

/-- Python `PurePath.name`: the final path component (`'/'`-separated, empty
components ignored), `""` when there is none.  (The `.` and `..` special
components do not occur in the filenames this model is applied to.) -/
def pyName (s : String) : String :=
  String.mk (((splitOnSlash s.toList []).filter (fun c => !c.isEmpty)).getLastD [])

/-- Python `PurePath.suffix` of a path: with `name = pyName s` and `i =
name.rfind('.')`, the result is `name[i:]` when `0 < i < len(name) - 1` and
`""` otherwise (so `"a.mp4" → ".mp4"`, `".bashrc" → ""`, `"a." → ""`,
`"a" → ""`). -/
def pySuffix (s : String) : String :=
  let l := (pyName s).toList
  let t := tailFromLastDot l
  if 2 ≤ t.length ∧ t.length < l.length then String.mk t else ""

/-- Python `PurePath.stem`: the final component without its `pySuffix`. -/
def pyStem (s : String) : String :=
  let n := pyName s
  String.mk (n.toList.take (n.toList.length - (pySuffix s).toList.length))

/-- Result of `POST /upload` as seen by the caller. -/
inductive UploadResult where
  | rejected                                -- 400 "File must be a video"
  | accepted (file_id object_name : String)
deriving DecidableEq, Repr

/-- A `put_object` call performed by the intake: target bucket, object name,
the raw bytes passed through unchanged, and the content type. -/
structure PutEffect where
  bucket : String
  object_name : String
  data : List Nat
  content_type : String
deriving DecidableEq, Repr

/-- `upload_video` (video_transcoder.py lines 224-251): reject with 400 unless
`content_type` is present and starts with `"video/"`; otherwise store the raw
bytes under `<file_id><ext>` in `INPUT_BUCKET`, where `ext` is
`Path(filename).suffix or ".mp4"`, and return the intake id.  `file_id` stands
for the freshly generated `uuid4` string. -/
def upload_video (content_type : Option String) (filename : String) (data : List Nat)
    (file_id : String) : UploadResult × Option PutEffect :=
  match content_type with
  | none => (.rejected, none)
  | some ct =>
      if ¬ strStartsWith "video/" ct then (.rejected, none)
      else
        let ext := if pySuffix filename = "" then ".mp4" else pySuffix filename
        let object_name := file_id ++ ext
        (.accepted file_id object_name, some ⟨INPUT_BUCKET, object_name, data, ct⟩)

/-! ## Worker job lifecycle (Celery retry) and local-file cleanup -/

/-- A single execution of the worker task body ends either successfully or with
an exception: FFmpeg non-zero exit (`subprocess.CalledProcessError`) or a
storage error that escaped the upload retry loop. -/
inductive ExecError where
  | encode (stderr : String)
  | storage (code : String)
deriving DecidableEq, Repr

/-- Terminal state of one Celery job. -/
inductive JobState where
  | success
  | failure (err : ExecError)
deriving DecidableEq, Repr

/-- The job lifecycle of `transcode_video_task` under Celery's documented
`Task.retry` semantics for `@celery_app.task(bind=True, max_retries=3)`
(celery_worker.py line 47): both `except` handlers call
`self.retry(exc=e, countdown=60)` (lines 191 and 195), which re-raises `e`
(the task moves to FAILURE) once the retry counter has reached `max_retries`,
and otherwise re-schedules the task after the countdown with the counter
incremented.  `attemptError k` is the outcome of execution number `k` (0-based;
`k` equals Celery's `request.retries` for that execution).  Returns the final
state, the number of executions performed, and the countdown delays (seconds)
in order.  The lifecycle is translated structurally on the number `fuel` of
executions still permitted, so the Celery retry counter of the current
execution is `retries = 4 - fuel`, and `retry` re-schedules (rather than
re-raises) exactly while `retries < max_retries`, i.e. `fuel ≠ 1`. -/
def jobGo (attemptError : Nat → Option ExecError) : Nat → JobState × Nat × List Nat
  | 0 => (.success, 0, [])     -- unreachable when started at fuel = 4
  | fuel + 1 =>
      let retries := 3 - fuel
      match attemptError retries with
      | none => (.success, 1, [])
      | some e =>
          if fuel = 0 then (.failure e, 1, [])
          else
            let rest := jobGo attemptError fuel
            (rest.1, rest.2.1 + 1, 60 :: rest.2.2)

/-- The job lifecycle started at a retry counter of 0 (`fuel = 4`: one initial
execution plus `max_retries = 3` re-schedules). -/
def runJob (attemptError : Nat → Option ExecError) : JobState × Nat × List Nat :=
  jobGo attemptError 4

/-- One execution of the task body, abstracted over whether FFmpeg fails and
over the storage outcome of each upload attempt: `subprocess.run(check=True)`
raising `CalledProcessError` short-circuits (celery_worker.py line 113);
otherwise the upload retry loop either succeeds or its exhausted `S3Error`
propagates to the generic `except Exception` handler (line 193). -/
def taskBodyError (encodeFails : Bool) (stderr : String)
    (uploadOutcomes : Nat → PutOutcome) : Option ExecError :=
  if encodeFails then some (.encode stderr)
  else
    match (uploadWithRetry uploadOutcomes).1 with
    | .ok _ => none
    | .error code => some (.storage code)

/-- The local path the task downloads the source to:
`input_path = f"/tmp/{input_name}"` (celery_worker.py line 52). -/
def inputPath (input_name : String) : String := "/tmp/" ++ input_name

/-- The local primary output path chosen per format (celery_worker.py lines
59, 75, 94): the `.m3u8` playlist for HLS, the `.mpd` manifest for DASH, the
single file for MP4.  HLS `.ts` segments and DASH `.m4s` segments are separate
files that are *not* this path. -/
def outputPath (output_name fmt : String) : String :=
  if fmt = "hls" then "/tmp/" ++ pyStem output_name ++ ".m3u8"
  else if fmt = "dash" then "/tmp/" ++ pyStem output_name ++ ".mpd"
  else "/tmp/" ++ output_name

/-- Local files remaining after the `subprocess.CalledProcessError` handler's
cleanup (video_transcoder.py lines 211-218 / celery_worker.py lines 182-191):
exactly `input_path` and `output_path` are removed, each when present; no other
produced file is touched. -/
def remainingAfterEncodeFailure (localFiles : List String)
    (input_name output_name fmt : String) : List String :=
  localFiles.filter (fun f => f != inputPath input_name && f != outputPath output_name fmt)

/-- Local files remaining after the generic `except Exception` handler
(video_transcoder.py lines 219-221 / celery_worker.py lines 193-195) — the
handler that receives an `S3Error` escaping the upload retry loop: it logs and
re-raises (respectively calls `self.retry`) without removing any file. -/
def remainingAfterUploadFailure (localFiles : List String) : List String :=
  localFiles

/-! ## Helper lemmas on the retry loops and the job lifecycle -/

/-- Number of storage read attempts recorded in a trace. -/
def statCount : List StorageEvent → Nat
  | [] => 0
  | .statAttempt _ :: t => statCount t + 1
  | _ :: t => statCount t

theorem uploadGo_length_le (o : Nat → PutOutcome) (r : Nat) :
    (uploadGo o r).2.length ≤ r := by
  induction r with
  | zero => simp [uploadGo]
  | succ n ih =>
      cases h : o (2 - n) with
      | none => simp [uploadGo, h]
      | some e =>
          by_cases hn : n = 0
          · subst hn; simp [uploadGo, h]
          · simp only [uploadGo, h]
            rw [if_neg hn]
            simpa using Nat.succ_le_succ ih

theorem uploadGo_no_sleep (o : Nat → PutOutcome) (r ms : Nat) :
    StorageEvent.sleep ms ∉ (uploadGo o r).2 := by
  induction r with
  | zero => simp [uploadGo]
  | succ n ih =>
      cases h : o (2 - n) with
      | none => simp [uploadGo, h]
      | some e =>
          by_cases hn : n = 0
          · subst hn; simp [uploadGo, h]
          · simp only [uploadGo, h]
            rw [if_neg hn]
            simp [ih]

theorem uploadWithRetry_ok3 (o : Nat → PutOutcome) (e1 e2 : String)
    (h0 : o 0 = some e1) (h1 : o 1 = some e2) (h2 : o 2 = none) :
    uploadWithRetry o = (.ok (), [.putAttempt 0, .putAttempt 1, .putAttempt 2]) := by
  simp [uploadWithRetry, uploadGo, h0, h1, h2]

theorem uploadWithRetry_exhaust (o : Nat → PutOutcome) (e1 e2 e3 : String)
    (h0 : o 0 = some e1) (h1 : o 1 = some e2) (h2 : o 2 = some e3) :
    uploadWithRetry o = (.error e3, [.putAttempt 0, .putAttempt 1, .putAttempt 2]) := by
  simp [uploadWithRetry, uploadGo, h0, h1, h2]

theorem streamGo_statCount_le (o : Nat → S3Outcome) (r : Nat) :
    statCount (streamGo o r).2 ≤ r := by
  induction r with
  | zero => simp [streamGo, statCount]
  | succ n ih =>
      cases h : o (2 - n) with
      | ok size => simp [streamGo, h, statCount]
      | err code =>
          by_cases h1 : code = "NoSuchKey"
          · simp [streamGo, h, h1, statCount]
          · simp only [streamGo, h]
            rw [if_neg h1]
            by_cases h2 : code = "AccessDenied" ∧ n ≠ 0
            · rw [if_pos h2]
              simpa [statCount] using Nat.succ_le_succ ih
            · rw [if_neg h2]
              simp [statCount]

theorem streamGo_noSuchKey (o : Nat → S3Outcome) (h0 : o 0 = .err "NoSuchKey") :
    streamGo o 3 = (.notFound, [.statAttempt 0]) := by
  simp [streamGo, h0]

theorem streamGo_backoff_success (o : Nat → S3Outcome) (size : Nat)
    (h0 : o 0 = .err "AccessDenied") (h1 : o 1 = .err "AccessDenied")
    (h2 : o 2 = .ok size) :
    streamGo o 3 = (.success size,
      [.statAttempt 0, .sleep 500, .statAttempt 1, .sleep 1000, .statAttempt 2]) := by
  simp [streamGo, h0, h1, h2]

theorem streamGo_exhaust (o : Nat → S3Outcome)
    (h0 : o 0 = .err "AccessDenied") (h1 : o 1 = .err "AccessDenied")
    (h2 : o 2 = .err "AccessDenied") :
    streamGo o 3 = (.httpError "AccessDenied",
      [.statAttempt 0, .sleep 500, .statAttempt 1, .sleep 1000, .statAttempt 2]) := by
  simp [streamGo, h0, h1, h2]

theorem jobGo_execs_le (a : Nat → Option ExecError) (r : Nat) :
    (jobGo a r).2.1 ≤ r := by
  induction r with
  | zero => simp [jobGo]
  | succ n ih =>
      cases h : a (3 - n) with
      | none => simp [jobGo, h]
      | some e =>
          by_cases hn : n = 0
          · subst hn; simp [jobGo, h]
          · simp only [jobGo, h]
            rw [if_neg hn]
            simpa using Nat.succ_le_succ ih

theorem jobGo_delays (a : Nat → Option ExecError) (r : Nat) :
    ∀ d ∈ (jobGo a r).2.2, d = 60 := by
  induction r with
  | zero => simp [jobGo]
  | succ n ih =>
      cases h : a (3 - n) with
      | none => simp [jobGo, h]
      | some e =>
          by_cases hn : n = 0
          · subst hn; simp [jobGo, h]
          · simp only [jobGo, h]
            rw [if_neg hn]
            intro d hd
            rcases List.mem_cons.mp hd with rfl | hd
            · rfl
            · exact ih d hd

/-! ## Theorems -/

/-- C1: For every job identity and target format in `{mp4, hls, dash}`, the
derived output name is a pure function of `(job_id, target_format)` equal to
`<job_id>_transcoded.mp4` / `.m3u8` / `.mpd` respectively, and the name
computed at submission by `transcode_video` equals the name recomputed by
`check_status` for the same `(file_id, format)` pair. -/
theorem C1_output_name_deterministic (file_id fmt : String)
    (h : fmt = "mp4" ∨ fmt = "hls" ∨ fmt = "dash") :
    transcodeOutputName file_id fmt = statusOutputName file_id fmt ∧
    (fmt = "mp4" → transcodeOutputName file_id fmt = file_id ++ "_transcoded.mp4") ∧
    (fmt = "hls" → transcodeOutputName file_id fmt = file_id ++ "_transcoded.m3u8") ∧
    (fmt = "dash" → transcodeOutputName file_id fmt = file_id ++ "_transcoded.mpd") := by
  rcases h with rfl | rfl | rfl <;>
    exact ⟨rfl, fun hh => by first | rfl | exact absurd hh (by decide),
           fun hh => by first | rfl | exact absurd hh (by decide),
           fun hh => by first | rfl | exact absurd hh (by decide)⟩

/-- Witness for C1 at `(job1, hls)`. -/
theorem C1_witness :
    transcodeOutputName "job1" "hls" = statusOutputName "job1" "hls" ∧
    transcodeOutputName "job1" "hls" = "job1" ++ "_transcoded.m3u8" := by
  have h := C1_output_name_deterministic "job1" "hls" (Or.inr (Or.inl rfl))
  exact ⟨h.1, h.2.2.1 rfl⟩

/-- C2: For every resolution string not in the fixed enumerated set (and every
format not in `{mp4, hls, dash}`), a transcode submission fails with a
validation error before any I/O is performed: no storage lookup happens, no
job/task is created, and no encode attempt is started. -/
theorem C2_invalid_request_rejected_before_io (listing : List String)
    (file_id resolution fmt : String)
    (h : resolution ∉ validResolutions ∨ fmt ∉ validFormats) :
    transcodeSubmit listing file_id resolution fmt =
      (.validationError, ⟨false, none⟩) := by
  have hv : validTranscodeRequest resolution fmt = false := by
    unfold validTranscodeRequest
    rcases h with h | h
    · have hc : validResolutions.contains resolution = false := by simpa using h
      rw [hc, Bool.false_and]
    · have hc : validFormats.contains fmt = false := by simpa using h
      rw [hc, Bool.and_false]
  unfold transcodeSubmit
  simp [hv]

/-- Witness for C2 at an invalid resolution. -/
theorem C2_witness :
    transcodeSubmit ["abc.mp4"] "abc" "999:999" "mp4" =
      (.validationError, ⟨false, none⟩) :=
  C2_invalid_request_rejected_before_io ["abc.mp4"] "abc" "999:999" "mp4"
    (Or.inl (by decide))

/-- C3: For every `(file_id, format)`, a status query never throws for a job
that has not finished: if the canonical output object exists in storage the
query reports `completed` with the output name and a stream locator, and if it
is absent (`NoSuchKey`) the query reports `processing`. -/
theorem C3_status_never_throws_unfinished (stat : String → String → S3Outcome)
    (file_id fmt : String) :
    (∀ size, stat OUTPUT_BUCKET (statusOutputName file_id fmt) = .ok size →
        check_status stat file_id fmt =
          .completed (statusOutputName file_id fmt)
            ("/videos/stream/" ++ statusOutputName file_id fmt)) ∧
    (stat OUTPUT_BUCKET (statusOutputName file_id fmt) = .err "NoSuchKey" →
        check_status stat file_id fmt = .processing) := by
  constructor
  · intro size h
    simp [check_status, h]
  · intro h
    simp [check_status, h]

/-- Witness for C3: completed on a present object, processing on an absent one. -/
theorem C3_witness :
    check_status (fun _ _ => .ok 7) "vid" "mp4" =
      .completed (statusOutputName "vid" "mp4")
        ("/videos/stream/" ++ statusOutputName "vid" "mp4") ∧
    check_status (fun _ _ => .err "NoSuchKey") "vid" "mp4" = .processing :=
  ⟨(C3_status_never_throws_unfinished (fun _ _ => .ok 7) "vid" "mp4").1 7 rfl,
   (C3_status_never_throws_unfinished (fun _ _ => .err "NoSuchKey") "vid" "mp4").2 rfl⟩

/-- C10: The status endpoint performs no validation of its `format` parameter:
for every format string other than `"hls"` and `"dash"` — including strings
outside the enumerated format set — it probes `<file_id>_transcoded.mp4` and
reports `processing` or `completed` accordingly (behaving exactly as
`format = "mp4"`), never a validation error. -/
theorem C10_status_format_unvalidated (stat : String → String → S3Outcome)
    (file_id fmt : String) (h1 : fmt ≠ "hls") (h2 : fmt ≠ "dash") :
    statusOutputName file_id fmt = file_id ++ "_transcoded.mp4" ∧
    check_status stat file_id fmt = check_status stat file_id "mp4" ∧
    (∀ size, stat OUTPUT_BUCKET (file_id ++ "_transcoded.mp4") = .ok size →
        check_status stat file_id fmt =
          .completed (file_id ++ "_transcoded.mp4")
            ("/videos/stream/" ++ (file_id ++ "_transcoded.mp4"))) ∧
    (stat OUTPUT_BUCKET (file_id ++ "_transcoded.mp4") = .err "NoSuchKey" →
        check_status stat file_id fmt = .processing) := by
  have hn : statusOutputName file_id fmt = file_id ++ "_transcoded.mp4" := by
    unfold statusOutputName
    rw [if_neg h1, if_neg h2]
  have h4 : statusOutputName file_id "mp4" = file_id ++ "_transcoded.mp4" := by
    unfold statusOutputName
    rw [if_neg (by decide), if_neg (by decide)]
  refine ⟨hn, ?_, ?_, ?_⟩
  · unfold check_status
    rw [hn, h4]
  · intro size h
    simp [check_status, hn, h]
  · intro h
    simp [check_status, hn, h]

/-- Witness for C10 at the out-of-set format string `"bogus"`. -/
theorem C10_witness :
    statusOutputName "vid" "bogus" = "vid" ++ "_transcoded.mp4" ∧
    check_status (fun _ _ => .err "NoSuchKey") "vid" "bogus" = .processing := by
  have h := C10_status_format_unvalidated (fun _ _ => .err "NoSuchKey") "vid" "bogus"
    (by decide) (by decide)
  exact ⟨h.1, h.2.2.2 rfl⟩

/-- C7: For every upload request, the intake boundary rejects the file unless
its content type begins with `video/`; on acceptance it stores the raw bytes
under the generated object name `<intake_id><ext>`, where `ext` is the original
filename's extension or `.mp4` when the filename has none, and returns the
intake identifier. -/
theorem C7_upload_intake (ct : Option String) (filename : String) (data : List Nat)
    (file_id : String) :
    ((ct = none ∨ ∃ c, ct = some c ∧ strStartsWith "video/" c = false) →
        upload_video ct filename data file_id = (.rejected, none)) ∧
    (∀ c, ct = some c → strStartsWith "video/" c = true →
        ∃ ext, ((pySuffix filename ≠ "" ∧ ext = pySuffix filename) ∨
                (pySuffix filename = "" ∧ ext = ".mp4")) ∧
          upload_video ct filename data file_id =
            (.accepted file_id (file_id ++ ext),
             some ⟨INPUT_BUCKET, file_id ++ ext, data, c⟩)) := by
  constructor
  · rintro (rfl | ⟨c, rfl, hc⟩)
    · rfl
    · simp [upload_video, hc]
  · rintro c rfl hc
    by_cases hs : pySuffix filename = ""
    · exact ⟨".mp4", Or.inr ⟨hs, rfl⟩, by simp [upload_video, hc, hs]⟩
    · exact ⟨pySuffix filename, Or.inl ⟨hs, rfl⟩, by simp [upload_video, hc, hs]⟩

/-- Witness for C7: a non-video content type is rejected; a video upload with
a `.mov` filename is stored under `<id><ext>`. -/
theorem C7_witness :
    upload_video (some "text/plain") "clip.mov" [1, 2] "id0" = (.rejected, none) ∧
    ∃ ext, ((pySuffix "clip.mov" ≠ "" ∧ ext = pySuffix "clip.mov") ∨
            (pySuffix "clip.mov" = "" ∧ ext = ".mp4")) ∧
      upload_video (some "video/quicktime") "clip.mov" [1, 2] "id0" =
        (.accepted "id0" ("id0" ++ ext),
         some ⟨INPUT_BUCKET, "id0" ++ ext, [1, 2], "video/quicktime"⟩) :=
  ⟨(C7_upload_intake (some "text/plain") "clip.mov" [1, 2] "id0").1
      (Or.inr ⟨"text/plain", rfl, by decide⟩),
   (C7_upload_intake (some "video/quicktime") "clip.mov" [1, 2] "id0").2
      "video/quicktime" rfl (by decide)⟩

/-- C9: For every bucket argument passed to the stream, download, and delete
endpoints, a value outside the known bucket set is silently coerced to the
output bucket rather than rejected: these operations never fail because of the
bucket name, and for an unknown bucket they behave exactly as if the output
bucket had been given. -/
theorem C9_unknown_bucket_coerced (bucket : String)
    (h1 : bucket ≠ INPUT_BUCKET) (h2 : bucket ≠ OUTPUT_BUCKET) :
    normalizeBucket bucket = OUTPUT_BUCKET ∧
    (∀ store filename, stream_video store filename bucket =
        stream_video store filename OUTPUT_BUCKET) ∧
    (∀ store filename, download_video store filename bucket =
        download_video store filename OUTPUT_BUCKET) ∧
    (∀ remove filename, delete_video remove filename bucket =
        delete_video remove filename OUTPUT_BUCKET) := by
  have hn : normalizeBucket bucket = OUTPUT_BUCKET := by
    unfold normalizeBucket
    rw [if_neg]
    rintro (h | h)
    · exact h1 h
    · exact h2 h
  have ho : normalizeBucket OUTPUT_BUCKET = OUTPUT_BUCKET := by
    unfold normalizeBucket
    rw [if_pos (Or.inr rfl)]
  refine ⟨hn, ?_, ?_, ?_⟩ <;> intro g f <;>
    simp [stream_video, download_video, delete_video, hn, ho]

/-- Witness for C9 at the unknown bucket name `"weird"`. -/
theorem C9_witness :
    normalizeBucket "weird" = OUTPUT_BUCKET ∧
    stream_video (fun _ _ _ => .ok 1) "f.mp4" "weird" =
      stream_video (fun _ _ _ => .ok 1) "f.mp4" OUTPUT_BUCKET ∧
    download_video (fun _ _ => .ok 1) "f.mp4" "weird" =
      download_video (fun _ _ => .ok 1) "f.mp4" OUTPUT_BUCKET ∧
    delete_video (fun _ _ => none) "f.mp4" "weird" =
      delete_video (fun _ _ => none) "f.mp4" OUTPUT_BUCKET := by
  have h := C9_unknown_bucket_coerced "weird" (by decide) (by decide)
  exact ⟨h.1, h.2.1 _ _, h.2.2.1 _ _, h.2.2.2 _ _⟩

/-- C4: Storage retry policy: `put` (artifact upload) and the stream/stat read
path are each retried up to a fixed bound of 3 attempts on transient errors;
each retry on the stream-read path is preceded by a linearly increasing
backoff of 0.5 s × attempt (500 ms, 1000 ms) while upload retries happen
immediately (no sleep events); a definitive object-not-found (`NoSuchKey`) is
never retried and surfaces as a distinct NotFound condition; exhausting the 3
attempts surfaces the last transient error as the failure raised to the
caller. -/
theorem C4_storage_retry_policy :
    (∀ o : Nat → PutOutcome, (uploadWithRetry o).2.length ≤ 3 ∧
        ∀ ms, StorageEvent.sleep ms ∉ (uploadWithRetry o).2) ∧
    (∀ o : Nat → PutOutcome, ∀ e1 e2, o 0 = some e1 → o 1 = some e2 → o 2 = none →
        uploadWithRetry o = (.ok (), [.putAttempt 0, .putAttempt 1, .putAttempt 2])) ∧
    (∀ o : Nat → PutOutcome, ∀ e1 e2 e3, o 0 = some e1 → o 1 = some e2 → o 2 = some e3 →
        uploadWithRetry o = (.error e3, [.putAttempt 0, .putAttempt 1, .putAttempt 2])) ∧
    (∀ o : Nat → S3Outcome, statCount (streamGo o 3).2 ≤ 3) ∧
    (∀ o : Nat → S3Outcome, o 0 = .err "NoSuchKey" →
        streamGo o 3 = (.notFound, [.statAttempt 0])) ∧
    (∀ o : Nat → S3Outcome, ∀ size, o 0 = .err "AccessDenied" →
        o 1 = .err "AccessDenied" → o 2 = .ok size →
        streamGo o 3 = (.success size,
          [.statAttempt 0, .sleep 500, .statAttempt 1, .sleep 1000, .statAttempt 2])) ∧
    (∀ o : Nat → S3Outcome, o 0 = .err "AccessDenied" → o 1 = .err "AccessDenied" →
        o 2 = .err "AccessDenied" →
        streamGo o 3 = (.httpError "AccessDenied",
          [.statAttempt 0, .sleep 500, .statAttempt 1, .sleep 1000, .statAttempt 2])) :=
  ⟨fun o => ⟨uploadGo_length_le o 3, fun ms => uploadGo_no_sleep o 3 ms⟩,
   fun o e1 e2 h0 h1 h2 => uploadWithRetry_ok3 o e1 e2 h0 h1 h2,
   fun o e1 e2 e3 h0 h1 h2 => uploadWithRetry_exhaust o e1 e2 e3 h0 h1 h2,
   fun o => streamGo_statCount_le o 3,
   fun o h0 => streamGo_noSuchKey o h0,
   fun o size h0 h1 h2 => streamGo_backoff_success o size h0 h1 h2,
   fun o h0 h1 h2 => streamGo_exhaust o h0 h1 h2⟩

/-- Witness for C4 on concrete storage behaviours. -/
theorem C4_witness :
    uploadWithRetry (fun k => if k < 2 then some "SlowDown" else none) =
      (.ok (), [.putAttempt 0, .putAttempt 1, .putAttempt 2]) ∧
    uploadWithRetry (fun _ => some "SlowDown") =
      (.error "SlowDown", [.putAttempt 0, .putAttempt 1, .putAttempt 2]) ∧
    streamGo (fun _ => .err "NoSuchKey") 3 = (.notFound, [.statAttempt 0]) ∧
    streamGo (fun k => if k < 2 then .err "AccessDenied" else .ok 9) 3 =
      (.success 9,
       [.statAttempt 0, .sleep 500, .statAttempt 1, .sleep 1000, .statAttempt 2]) ∧
    streamGo (fun _ => .err "AccessDenied") 3 =
      (.httpError "AccessDenied",
       [.statAttempt 0, .sleep 500, .statAttempt 1, .sleep 1000, .statAttempt 2]) :=
  ⟨C4_storage_retry_policy.2.1 _ "SlowDown" "SlowDown" rfl rfl rfl,
   C4_storage_retry_policy.2.2.1 _ "SlowDown" "SlowDown" "SlowDown" rfl rfl rfl,
   C4_storage_retry_policy.2.2.2.2.1 _ rfl,
   C4_storage_retry_policy.2.2.2.2.2.1 _ 9 rfl rfl rfl,
   C4_storage_retry_policy.2.2.2.2.2.2 _ rfl rfl rfl⟩

/-- C5 counterexample: the claim's "fixed retry ceiling of 3 attempts total" is
false.  A job whose first three executions fail is not in FAILURE after those
3 attempts: Celery's `max_retries = 3` allows three *retries*, so a fourth
execution runs (and here succeeds); an always-failing job performs 4
executions before FAILURE. -/
theorem C5_counterexample :
    runJob (fun k => if k < 3 then some (.encode "ffmpeg exited 1") else none) =
      (.success, 4, [60, 60, 60]) ∧
    (runJob (fun _ => some (.encode "ffmpeg exited 1"))).2.1 = 4 := by
  decide

/-- C5 (amended): on an encode failure or a storage failure during upload the
whole job is rescheduled, up to a fixed ceiling of 3 retries — hence up to 4
attempts in total — with a fixed 60-second delay before each next attempt, and
only after exhausting those retries does the job move to FAILURE with the last
error recorded. -/
theorem C5_job_retry_ceiling :
    (∀ stderr upl, taskBodyError true stderr upl = some (.encode stderr)) ∧
    (∀ stderr upl e1 e2 e3, upl 0 = some e1 → upl 1 = some e2 → upl 2 = some e3 →
        taskBodyError false stderr upl = some (.storage e3)) ∧
    (∀ a, (runJob a).2.1 ≤ 4) ∧
    (∀ a, ∀ d ∈ (runJob a).2.2, d = 60) ∧
    (∀ a e0, a 0 = some e0 → a 1 = none → runJob a = (.success, 2, [60])) ∧
    (∀ a e0 e1 e2 e3, a 0 = some e0 → a 1 = some e1 → a 2 = some e2 → a 3 = some e3 →
        runJob a = (.failure e3, 4, [60, 60, 60])) := by
  refine ⟨fun stderr upl => rfl, ?_, fun a => jobGo_execs_le a 4,
    fun a => jobGo_delays a 4, ?_, ?_⟩
  · intro stderr upl e1 e2 e3 h0 h1 h2
    unfold taskBodyError
    rw [uploadWithRetry_exhaust upl e1 e2 e3 h0 h1 h2]
    rfl
  · intro a e0 h0 h1
    simp [runJob, jobGo, h0, h1]
  · intro a e0 e1 e2 e3 h0 h1 h2 h3
    simp [runJob, jobGo, h0, h1, h2, h3]

/-- Witness for C5 on concrete execution outcomes. -/
theorem C5_witness :
    taskBodyError true "boom" (fun _ => none) = some (.encode "boom") ∧
    taskBodyError false "boom" (fun _ => some "SlowDown") = some (.storage "SlowDown") ∧
    runJob (fun k => if k = 0 then some (.encode "boom") else none) =
      (.success, 2, [60]) ∧
    runJob (fun _ => some (.storage "SlowDown")) =
      (.failure (.storage "SlowDown"), 4, [60, 60, 60]) :=
  ⟨C5_job_retry_ceiling.1 "boom" _,
   C5_job_retry_ceiling.2.1 "boom" _ "SlowDown" "SlowDown" "SlowDown" rfl rfl rfl,
   C5_job_retry_ceiling.2.2.2.2.1 _ (.encode "boom") rfl rfl,
   C5_job_retry_ceiling.2.2.2.2.2 _ (.storage "SlowDown") (.storage "SlowDown")
     (.storage "SlowDown") (.storage "SlowDown") rfl rfl rfl rfl⟩

/-- C6: the claim is contradicted by the code.  After a failed HLS encode the
`CalledProcessError` handler removes only the downloaded input and the
`.m3u8` playlist path, leaving the produced `.ts` segments behind; and a
storage failure after upload retries are exhausted reaches the generic
`except Exception` handler, which removes nothing at all — the input file,
the manifest and the `.m4s` segments all remain. -/
theorem C6_cleanup_incomplete :
    remainingAfterEncodeFailure
        ["/tmp/src0.mp4", "/tmp/j1_transcoded.m3u8",
         "/tmp/j1_transcoded_000.ts", "/tmp/j1_transcoded_001.ts"]
        "src0.mp4" "j1_transcoded.m3u8" "hls"
      = ["/tmp/j1_transcoded_000.ts", "/tmp/j1_transcoded_001.ts"] ∧
    remainingAfterUploadFailure
        ["/tmp/src0.mp4", "/tmp/j2_transcoded.mpd", "/tmp/j2_transcoded_chunk_0_1.m4s"]
      = ["/tmp/src0.mp4", "/tmp/j2_transcoded.mpd", "/tmp/j2_transcoded_chunk_0_1.m4s"] := by
  decide

theorem startsWithChars_append (p t : List Char) :
    startsWithChars p (p ++ t) = true := by
  induction p with
  | nil => rfl
  | cons a as ih => simp [startsWithChars, ih]

theorem head_le_of_sorted_mem {l : List String} (hs : l.Sorted (· ≤ ·))
    {x : String} (hx : x ∈ l) : ∃ k, l.head? = some k ∧ k ≤ x := by
  cases l with
  | nil => cases hx
  | cons a t =>
      refine ⟨a, rfl, ?_⟩
      rcases List.mem_cons.mp hx with rfl | hx
      · exact le_rfl
      · exact List.rel_of_sorted_cons hs x hx

theorem lexLtAppend (l : List Char) {a b : Char} (h : a < b) (r1 r2 : List Char) :
    List.Lex (· < ·) (l ++ a :: r1) (l ++ b :: r2) := by
  induction l with
  | nil => exact List.Lex.rel h
  | cons c cs ih => exact List.Lex.cons ih

/-- The source object name `<fid>.<e1>` sorts strictly before any
`<fid>_transcoded.<e2>`, because `'.'` (0x2E) precedes `'_'` (0x5F). -/
theorem source_lt_transcoded (fid e1 e2 : String) :
    fid ++ "." ++ e1 < fid ++ "_transcoded." ++ e2 := by
  rw [String.lt_iff_toList_lt]
  have h1 : (fid ++ "." ++ e1).toList = fid.toList ++ '.' :: e1.toList := by
    show (fid.toList ++ ['.']) ++ e1.toList = _
    simp
  have h2 : (fid ++ "_transcoded." ++ e2).toList
      = fid.toList ++ '_' :: ("transcoded.".toList ++ e2.toList) := by
    show (fid.toList ++ ('_' :: "transcoded.".toList)) ++ e2.toList = _
    simp
  rw [h1, h2]
  exact lexLtAppend _ (show '.' < '_' by decide) _ _

/-- C8 counterexample: at exactly the storage state the claim describes — the
source `abc.mp4` and the previously produced output `abc_transcoded.mp4` both
present, listed in the client's sorted order — the prefix lookup selects the
source, not the transcoded output. -/
theorem C8_counterexample :
    List.Sorted (· ≤ ·) ["abc.mp4", "abc_transcoded.mp4"] ∧
    firstKeyFor ["abc.mp4", "abc_transcoded.mp4"] "abc" = some "abc.mp4" ∧
    firstKeyFor ["abc.mp4", "abc_transcoded.mp4"] "abc" ≠ some "abc_transcoded.mp4" := by
  refine ⟨?_, by decide, by decide⟩
  refine List.pairwise_cons.mpr ⟨?_, List.pairwise_singleton _ _⟩
  intro b hb
  rcases List.mem_singleton.mp hb with rfl
  exact String.le_iff_toList_le.mpr (by decide)

/-- C8 (amended): the input and output buckets are the same object-storage
bucket (`videobucket`), and transcode submission resolves its source by taking
the first listed object whose key has `file_id` as a prefix; but since the
storage client lists keys lexicographically and the source `<file_id><ext>`
continues with `'.'` while every transcoded name continues with `'_'`, the
lookup returns a key no greater than the source whenever the source is present
— never the transcoded output.  The transcoded output can be selected only in
states where the source object is absent. -/
theorem C8_prefix_lookup_prefers_source (listing : List String)
    (fid e1 e2 : String) (hs : listing.Sorted (· ≤ ·))
    (hsrc : (fid ++ "." ++ e1) ∈ listing)
    (hout : (fid ++ "_transcoded." ++ e2) ∈ listing) :
    INPUT_BUCKET = OUTPUT_BUCKET ∧
    ∃ k, firstKeyFor listing fid = some k ∧ k ≤ fid ++ "." ++ e1 ∧
      k ≠ fid ++ "_transcoded." ++ e2 := by
  refine ⟨rfl, ?_⟩
  have hmem : (fid ++ "." ++ e1) ∈ listKeys listing fid := by
    refine List.mem_filter.mpr ⟨hsrc, ?_⟩
    show keyMatches fid (fid ++ "." ++ e1) = true
    unfold keyMatches strStartsWith
    have h1 : (fid ++ "." ++ e1).toList = fid.toList ++ ('.' :: e1.toList) := by
      show (fid.toList ++ ['.']) ++ e1.toList = _
      simp
    rw [h1]
    exact startsWithChars_append _ _
  have hsf : (listKeys listing fid).Sorted (· ≤ ·) := hs.filter _
  obtain ⟨k, hk, hle⟩ := head_le_of_sorted_mem hsf hmem
  exact ⟨k, hk, hle,
    ne_of_lt (lt_of_le_of_lt hle (source_lt_transcoded fid e1 e2))⟩

/-- Witness for C8 at the concrete two-object state. -/
theorem C8_witness :
    INPUT_BUCKET = OUTPUT_BUCKET ∧
    ∃ k, firstKeyFor ["abc.mp4", "abc_transcoded.mp4"] "abc" = some k ∧
      k ≤ "abc" ++ "." ++ "mp4" ∧ k ≠ "abc" ++ "_transcoded." ++ "mp4" := by
  refine C8_prefix_lookup_prefers_source _ "abc" "mp4" "mp4" ?_ (by decide) (by decide)
  refine List.pairwise_cons.mpr ⟨?_, List.pairwise_singleton _ _⟩
  intro b hb
  rcases List.mem_singleton.mp hb with rfl
  exact String.le_iff_toList_le.mpr (by decide)

end VideoTranscoder
